import Mathlib

/-!
Verification development for the shell-man CLI utility.

The definitions below are a shallow embedding of the TypeScript sources:
src/types.ts (data model and constants), src/config.ts (configuration
store and initializer), the environment reader and presentation layer
(getShellInfo, getEnvironmentInfo, displayEnvironmentInfo), and the text
selection logic of the CLI entry point.

Effectful operations are made explicit: the file system is a FileState
value threaded through readConfig, writeConfig and initConfig; the
interactive prompts are parameterised by a PromptAnswers record holding
the values the prompt library would deliver (none models an interrupted
prompt); possible exceptions of the prompting step and of directory
creation are modelled by boolean flags in an Env record, and initConfig
is written over an Except-valued core so that its catch-all behaviour is
visible in the model.
-/

/-- JS-style truthiness of a string-or-undefined value: undefined and the
empty string are falsy, every other string is truthy. -/
def jsTruthyStr : Option String → Bool
  | none => false
  | some s => !s.isEmpty

/-- EnvironmentInfo record from src/types.ts. -/
structure EnvironmentInfo where
  osType : String
  osVersion : String
  architecture : String
  shellPath : String
  shellName : String
deriving DecidableEq

/-- ShellInfo record from src/types.ts. -/
structure ShellInfo where
  path : String
  name : String
deriving DecidableEq

/-- ShellManConfig record from src/types.ts. The two optional fields are
modelled with Option. -/
structure ShellManConfig where
  API_KEY : String
  API_PROVIDER : String
  API_MODEL : String
  API_CUSTOM_ENDPOINT : Option String
  HISTORY_ENABLE : Bool
  source : Option String
deriving DecidableEq

/-- The shape of a configuration object as it comes back from JSON.parse:
every field may be absent. This models the TS view of the parsed file
content, where each field of the record may be missing. -/
structure StoredConfig where
  API_KEY : Option String
  API_PROVIDER : Option String
  API_MODEL : Option String
  API_CUSTOM_ENDPOINT : Option String
  HISTORY_ENABLE : Option Bool
  source : Option String
deriving DecidableEq

/-- A stored view with no field present, the empty object literal used by
the default parameter of promptForMissingConfig. -/
def emptyStored : StoredConfig := ⟨none, none, none, none, none, none⟩

/-- API_PROVIDERS constant from src/types.ts. -/
def API_PROVIDERS : List String :=
  ["openai", "anthropic", "google", "cohere", "mistral", "ollama", "azure"]

/-- PROVIDER_MODELS lookup table from src/types.ts; an unknown provider
maps to the empty list, mirroring the fallback used at every call site. -/
def PROVIDER_MODELS : String → List String
  | "openai" => ["gpt-3.5-turbo", "gpt-4", "gpt-4-turbo", "gpt-4o"]
  | "anthropic" =>
      ["claude-instant-1", "claude-2", "claude-3-opus", "claude-3-sonnet",
       "claude-3-haiku"]
  | "google" => ["gemini-pro", "gemini-pro-vision", "gemini-ultra"]
  | "cohere" => ["command", "command-light", "command-r", "command-r-plus"]
  | "mistral" =>
      ["mistral-tiny", "mistral-small", "mistral-medium", "mistral-large"]
  | "ollama" => ["llama2", "mistral", "gemma", "phi"]
  | "azure" => ["gpt-35-turbo", "gpt-4", "gpt-4-turbo"]
  | _ => []

/-- DEFAULT_CONFIG constant from src/types.ts. The source key is present
with value undefined in the TS object, which the Option model renders as
none; the API_CUSTOM_ENDPOINT key is absent. -/
def DEFAULT_CONFIG : ShellManConfig :=
  { API_KEY := ""
    API_PROVIDER := "openai"
    API_MODEL := "gpt-3.5-turbo"
    API_CUSTOM_ENDPOINT := none
    HISTORY_ENABLE := true
    source := none }

/-- validateConfig from src/config.ts: collects the required fields that
are missing, where a string field counts as missing when it is undefined
or empty, and HISTORY_ENABLE counts as missing exactly when undefined. -/
def validateConfig (config : StoredConfig) : List String :=
  (if !jsTruthyStr config.API_KEY then ["API_KEY"] else [])
    ++ (if !jsTruthyStr config.API_PROVIDER then ["API_PROVIDER"] else [])
    ++ (if !jsTruthyStr config.API_MODEL then ["API_MODEL"] else [])
    ++ (if config.HISTORY_ENABLE.isNone then ["HISTORY_ENABLE"] else [])

/-- Values the prompt library would deliver for each question; none models
an interrupted or cancelled prompt. -/
structure PromptAnswers where
  apiKey : Option String
  model : Option String
  endpoint : Option String
  historyEnable : Option Bool
  provider : Option String

/-- promptForApiKey from src/config.ts: the answer, with undefined mapped
to the empty string. -/
def promptForApiKey (a : PromptAnswers) : String :=
  a.apiKey.getD ""

/-- promptForApiProvider from src/config.ts: a falsy answer falls back to
the provider openai. -/
def promptForApiProvider (a : PromptAnswers) : String :=
  match a.provider with
  | none => "openai"
  | some p => if p.isEmpty then "openai" else p

/-- promptForApiModel from src/config.ts: a falsy answer falls back to the
first model of the given provider, or the empty string when the provider
has no models. -/
def promptForApiModel (a : PromptAnswers) (provider : String) : String :=
  let models := PROVIDER_MODELS provider
  let defaultModel := models.headD ""
  match a.model with
  | none => defaultModel
  | some m => if m.isEmpty then defaultModel else m

/-- promptForCustomEndpoint from src/config.ts: a falsy answer becomes
undefined. -/
def promptForCustomEndpoint (a : PromptAnswers) : Option String :=
  match a.endpoint with
  | none => none
  | some s => if s.isEmpty then none else some s

/-- promptForHistoryEnable from src/config.ts: an undefined answer falls
back to true. -/
def promptForHistoryEnable (a : PromptAnswers) : Bool :=
  a.historyEnable.getD true

/-- The object spread that opens promptForMissingConfig: fields present in
the stored view override the defaults, key by key. -/
def mergeWithDefaults (pc : StoredConfig) : ShellManConfig :=
  { API_KEY := pc.API_KEY.getD DEFAULT_CONFIG.API_KEY
    API_PROVIDER := pc.API_PROVIDER.getD DEFAULT_CONFIG.API_PROVIDER
    API_MODEL := pc.API_MODEL.getD DEFAULT_CONFIG.API_MODEL
    API_CUSTOM_ENDPOINT := pc.API_CUSTOM_ENDPOINT
    HISTORY_ENABLE := pc.HISTORY_ENABLE.getD DEFAULT_CONFIG.HISTORY_ENABLE
    source := pc.source }

/-- promptForMissingConfig from src/config.ts, instrumented with a trace
of the prompts that were issued (second component). The API key is
prompted only when the merged key is falsy, the provider only when the
merged provider is falsy, the model whenever the merged model is falsy or
not in the model list of the current provider; the custom endpoint and
the history toggle are prompted unconditionally. -/
def promptForMissingConfig (a : PromptAnswers) (pc : StoredConfig) :
    ShellManConfig × List String :=
  let config := mergeWithDefaults pc
  let keyStep :=
    if config.API_KEY.isEmpty then (promptForApiKey a, ["API_KEY"])
    else (config.API_KEY, [])
  let providerStep :=
    if config.API_PROVIDER.isEmpty then
      (promptForApiProvider a, ["API_PROVIDER"])
    else (config.API_PROVIDER, [])
  let availableModels := PROVIDER_MODELS providerStep.1
  let modelStep :=
    if config.API_MODEL.isEmpty
        || !(availableModels.contains config.API_MODEL) then
      (promptForApiModel a providerStep.1, ["API_MODEL"])
    else (config.API_MODEL, [])
  ({ API_KEY := keyStep.1
     API_PROVIDER := providerStep.1
     API_MODEL := modelStep.1
     API_CUSTOM_ENDPOINT := promptForCustomEndpoint a
     HISTORY_ENABLE := promptForHistoryEnable a
     source := config.source },
   keyStep.2 ++ providerStep.2 ++ modelStep.2
     ++ ["API_CUSTOM_ENDPOINT", "HISTORY_ENABLE"])

/-- JSON values, the image of JSON.stringify and JSON.parse. -/
inductive Json where
  | str : String → Json
  | jbool : Bool → Json
  | jnull : Json
  | obj : List (String × Json) → Json
  | arr : List Json → Json

/-- Key lookup in a JSON object, the behaviour of property access on the
parsed value. -/
def jsonLookup : List (String × Json) → String → Option Json
  | [], _ => none
  | (k, v) :: rest, key => if k = key then some v else jsonLookup rest key

/-- Reads a string-typed property. -/
def jsonGetStr : Option Json → Option String
  | some (Json.str s) => some s
  | _ => none

/-- Reads a boolean-typed property. -/
def jsonGetBool : Option Json → Option Bool
  | some (Json.jbool b) => some b
  | _ => none

/-- JSON.stringify of a ShellManConfig: every defined field is emitted in
declaration order, fields holding undefined are omitted. -/
def configToJson (c : ShellManConfig) : Json :=
  Json.obj
    ([("API_KEY", Json.str c.API_KEY),
      ("API_PROVIDER", Json.str c.API_PROVIDER),
      ("API_MODEL", Json.str c.API_MODEL)]
     ++ (match c.API_CUSTOM_ENDPOINT with
         | some e => [("API_CUSTOM_ENDPOINT", Json.str e)]
         | none => [])
     ++ [("HISTORY_ENABLE", Json.jbool c.HISTORY_ENABLE)]
     ++ (match c.source with
         | some s => [("source", Json.str s)]
         | none => []))

/-- JSON.stringify of a stored (possibly incomplete) configuration
object: present fields are emitted, absent fields are omitted. -/
def storedToJson (c : StoredConfig) : Json :=
  Json.obj
    ((match c.API_KEY with
      | some k => [("API_KEY", Json.str k)]
      | none => [])
     ++ (match c.API_PROVIDER with
         | some p => [("API_PROVIDER", Json.str p)]
         | none => [])
     ++ (match c.API_MODEL with
         | some m => [("API_MODEL", Json.str m)]
         | none => [])
     ++ (match c.API_CUSTOM_ENDPOINT with
         | some e => [("API_CUSTOM_ENDPOINT", Json.str e)]
         | none => [])
     ++ (match c.HISTORY_ENABLE with
         | some h => [("HISTORY_ENABLE", Json.jbool h)]
         | none => [])
     ++ (match c.source with
         | some s => [("source", Json.str s)]
         | none => []))

/-- The view of a parsed JSON document through the ShellManConfig field
accessors, as produced by the unchecked cast after JSON.parse. A document
that is not an object yields none; this model covers the file states the
initializer distinguishes (absent, unparseable, or a JSON object). -/
def configFromJson : Json → Option StoredConfig
  | Json.obj l =>
      some
        { API_KEY := jsonGetStr (jsonLookup l "API_KEY")
          API_PROVIDER := jsonGetStr (jsonLookup l "API_PROVIDER")
          API_MODEL := jsonGetStr (jsonLookup l "API_MODEL")
          API_CUSTOM_ENDPOINT := jsonGetStr (jsonLookup l "API_CUSTOM_ENDPOINT")
          HISTORY_ENABLE := jsonGetBool (jsonLookup l "HISTORY_ENABLE")
          source := jsonGetStr (jsonLookup l "source") }
  | _ => none

/-- The stored view of a full configuration: every field present. -/
def toStored (c : ShellManConfig) : StoredConfig :=
  { API_KEY := some c.API_KEY
    API_PROVIDER := some c.API_PROVIDER
    API_MODEL := some c.API_MODEL
    API_CUSTOM_ENDPOINT := c.API_CUSTOM_ENDPOINT
    HISTORY_ENABLE := some c.HISTORY_ENABLE
    source := c.source }

/-- State of the configuration file: absent (readFileSync throws),
present but not valid JSON (JSON.parse throws), or a parsed document. -/
inductive FileState where
  | absent
  | invalid
  | content (j : Json)

/-- configExists from src/config.ts: the existence check on the file. -/
def configExists : FileState → Bool
  | FileState.absent => false
  | _ => true

/-- readConfig from src/config.ts: returns the parsed document view, or
none when reading or parsing throws (the catch logs and returns null). -/
def readConfig : FileState → Option StoredConfig
  | FileState.absent => none
  | FileState.invalid => none
  | FileState.content j => configFromJson j

/-- writeConfig from src/config.ts: on success the file now holds the
serialized configuration and true is returned; a write error is caught
and false is returned, leaving the file unchanged. The writeOk flag
models whether the file system write succeeds. -/
def writeConfig (writeOk : Bool) (fs : FileState) (c : ShellManConfig) :
    Bool × FileState :=
  if writeOk then (true, FileState.content (configToJson c)) else (false, fs)

example : configFromJson (configToJson DEFAULT_CONFIG) = some (toStored DEFAULT_CONFIG) := by rfl

example (k : String) :
    configFromJson (configToJson { DEFAULT_CONFIG with API_KEY := k })
      = some (toStored { DEFAULT_CONFIG with API_KEY := k }) := by rfl

/-- Fills one field of a configuration object from DEFAULT_CONFIG, the
body of the for-loop over the missing fields in initConfig. -/
def setField (c : StoredConfig) (f : String) : StoredConfig :=
  if f = "API_KEY" then { c with API_KEY := some DEFAULT_CONFIG.API_KEY }
  else if f = "API_PROVIDER" then
    { c with API_PROVIDER := some DEFAULT_CONFIG.API_PROVIDER }
  else if f = "API_MODEL" then
    { c with API_MODEL := some DEFAULT_CONFIG.API_MODEL }
  else if f = "HISTORY_ENABLE" then
    { c with HISTORY_ENABLE := some DEFAULT_CONFIG.HISTORY_ENABLE }
  else c

/-- The for-loop in initConfig that copies each missing field from
DEFAULT_CONFIG into the configuration object. -/
def fillDefaults (c : StoredConfig) (missing : List String) : StoredConfig :=
  missing.foldl setField c

/-- The configuration object as the program uses it after the existing
file content was spread into it: field accesses on the object, with the
values an absent property would yield. In every path of initConfig the
required fields are present when this view is taken. -/
def forceConfig (c : StoredConfig) : ShellManConfig :=
  { API_KEY := c.API_KEY.getD ""
    API_PROVIDER := c.API_PROVIDER.getD ""
    API_MODEL := c.API_MODEL.getD ""
    API_CUSTOM_ENDPOINT := c.API_CUSTOM_ENDPOINT
    HISTORY_ENABLE := c.HISTORY_ENABLE.getD DEFAULT_CONFIG.HISTORY_ENABLE
    source := c.source }

/-- Ambient inputs of one initConfig run: the state of the configuration
file, the values the interactive prompts would deliver, whether the
prompting step throws, whether file system writes succeed, and whether
creating the configuration directory throws. -/
structure Env where
  fileState : FileState
  answers : PromptAnswers
  promptFails : Bool
  writeOk : Bool
  dirFails : Bool

/-- The call await promptForMissingConfig(...) as seen from initConfig:
either it throws (modelled by the promptFails flag) or it returns the
prompted configuration. -/
def promptForMissingConfigE (a : PromptAnswers) (promptFails : Bool)
    (pc : StoredConfig) : Except Unit (ShellManConfig × List String) :=
  if promptFails then Except.error () else Except.ok (promptForMissingConfig a pc)

/-- The body of initConfig from src/config.ts up to but not including its
outermost catch: an error value models an exception reaching that catch.
The result carries the returned configuration and the final state of the
configuration file. -/
def initConfigCore (nonInteractive : Bool) (e : Env) :
    Except Unit (ShellManConfig × FileState) :=
  if e.dirFails then Except.error ()
  else if !configExists e.fileState then
    if nonInteractive then
      let config := { DEFAULT_CONFIG with source := some "defaults" }
      let w := writeConfig e.writeOk e.fileState config
      Except.ok (config, w.2)
    else
      match promptForMissingConfigE e.answers e.promptFails emptyStored with
      | Except.ok r =>
          let config := { r.1 with source := some "user input" }
          let w := writeConfig e.writeOk e.fileState config
          Except.ok (config, w.2)
      | Except.error _ =>
          let config := { DEFAULT_CONFIG with source := some "defaults (fallback)" }
          let w := writeConfig e.writeOk e.fileState config
          Except.ok (config, w.2)
  else
    match readConfig e.fileState with
    | some existingConfig =>
        let missingFields := validateConfig existingConfig
        if nonInteractive && !missingFields.isEmpty then
          let config :=
            forceConfig
              (fillDefaults
                { existingConfig with
                    source := some "existing with default additions" }
                missingFields)
          let w := writeConfig e.writeOk e.fileState config
          Except.ok (config, w.2)
        else if !missingFields.isEmpty && !nonInteractive then
          match promptForMissingConfigE e.answers e.promptFails existingConfig with
          | Except.ok r =>
              let config := { r.1 with source := some "existing with user updates" }
              let w := writeConfig e.writeOk e.fileState config
              Except.ok (config, w.2)
          | Except.error _ =>
              let config :=
                forceConfig
                  (fillDefaults
                    { existingConfig with
                        source := some "existing with default additions (fallback)" }
                    missingFields)
              Except.ok (config, e.fileState)
        else
          Except.ok
            ({ forceConfig existingConfig with source := some "existing (valid)" },
             e.fileState)
    | none =>
        let config := { DEFAULT_CONFIG with source := some "defaults (read error)" }
        let w := writeConfig e.writeOk e.fileState config
        Except.ok (config, w.2)

/-- initConfig from src/config.ts: the core wrapped in the outermost
try-catch, which turns any escaped exception into the default
configuration with an error-fallback provenance and leaves the file
untouched. -/
def initConfig (nonInteractive : Bool) (e : Env) : ShellManConfig × FileState :=
  match initConfigCore nonInteractive e with
  | Except.ok r => r
  | Except.error _ =>
      ({ DEFAULT_CONFIG with source := some "defaults (error fallback)" },
       e.fileState)

/-- The environment variables consulted by the shell detection. -/
structure ProcEnv where
  ComSpec : Option String
  PSModulePath : Option String
  SHELL : Option String

/-- Splits a character list at every slash. -/
def splitSlash : List Char → List (List Char)
  | [] => [[]]
  | c :: rest =>
      let r := splitSlash rest
      if c = '/' then [] :: r
      else
        match r with
        | [] => [[c]]
        | x :: xs => (c :: x) :: xs

/-- Node path.basename for the paths the shell detection sees: the last
nonempty slash-separated component; a path with no such component is
returned unchanged. -/
def basename (p : String) : String :=
  let parts := (splitSlash p.data).filter (fun s => !s.isEmpty)
  match parts.getLast? with
  | some s => String.mk s
  | none => p

/-- JS String.replace with a string pattern: replaces only the first
occurrence of the pattern. -/
def jsReplaceFirst (s pat rep : String) : String :=
  match s.splitOn pat with
  | [] => s
  | [x] => x
  | x :: y :: rest => x ++ rep ++ String.intercalate pat (y :: rest)

/-- getShellInfo from the environment module: on win32, ComSpec (with the
exe suffix stripped from the basename), else PSModulePath implies
powershell, else cmd; on POSIX, the SHELL variable with its basename, or
the default shell when SHELL is unset or empty. -/
def getShellInfo (platform : String) (env : ProcEnv) : ShellInfo :=
  if platform = "win32" then
    if jsTruthyStr env.ComSpec then
      let shellPath := env.ComSpec.getD ""
      { path := shellPath, name := jsReplaceFirst (basename shellPath) ".exe" "" }
    else if jsTruthyStr env.PSModulePath then
      { path := "powershell.exe", name := "powershell" }
    else
      { path := "cmd.exe", name := "cmd" }
  else
    if !jsTruthyStr env.SHELL then
      { path := "/bin/sh", name := "sh" }
    else
      let shellPath := env.SHELL.getD ""
      { path := shellPath, name := basename shellPath }

/-- getEnvironmentInfo from the environment module: combines the OS type,
release and architecture queries with the detected shell. -/
def getEnvironmentInfo (osType osVersion architecture platform : String)
    (env : ProcEnv) : EnvironmentInfo :=
  let shellInfo := getShellInfo platform env
  { osType := osType
    osVersion := osVersion
    architecture := architecture
    shellPath := shellInfo.path
    shellName := shellInfo.name }

/-- Process and system facts consulted only by the verbose debug block. -/
structure SysInfo where
  nodeVersion : String
  cwd : String
  pid : Nat
  platform : String
  cpuCores : Nat
  totalmem : Nat
  freemem : Nat
  uptime : Nat
  hostname : String
  PATH : Option String
  NODE_ENV : Option String
  HOME : Option String
  USERPROFILE : Option String
  LANG : Option String
  TERM : Option String
  USER : Option String
  USERNAME : Option String
  SHELL : Option String

/-- JS Math.round of a nonnegative quotient n / m, for even m. -/
def jsRoundDiv (n m : Nat) : Nat := (n + m / 2) / m

/-- JS expression a or-else b on string-or-undefined values: b when a is
falsy. -/
def jsOr (a b : Option String) : Option String :=
  if jsTruthyStr a then a else b

/-- The PATH line of the debug block: the first fifty characters, an
ellipsis when longer, and the JS rendering of undefined when unset. -/
def pathDisplay (PATH : Option String) : String :=
  (match PATH with
   | some p => p.take 50
   | none => "undefined")
    ++ (match PATH with
        | some p => if p.length > 50 then "..." else ""
        | none => "")

/-- Payload of one logger emission of the presentation layer. -/
inductive LogData where
  | text (s : String)
  | envInfo (info : EnvironmentInfo)
  | procInfo (nodeVersion : String) (cwd : String) (pid : Nat)
  | sysInfo (platform : String) (cpuCores totalMB freeMB uptimeMin : Nat)
      (hostname : String)
  | envVars (PATH : String)
      (NODE_ENV HOME SHELL LANG TERM USER : Option String)

/-- displayEnvironmentInfo from the environment module: when the debug
flag is set, emits the environment, process, system and selected
environment-variable blocks; then emits the user text exactly when it is
truthy, under the running mode tag. -/
def displayEnvironmentInfo (info : EnvironmentInfo) (text : Option String)
    (debug : Bool) (s : SysInfo) : List (String × LogData) :=
  (if debug then
    [("\nEnvironment Information", LogData.envInfo info),
     ("\nProcess Information", LogData.procInfo s.nodeVersion s.cwd s.pid),
     ("\nSystem Information",
      LogData.sysInfo s.platform s.cpuCores
        (jsRoundDiv s.totalmem (1024 * 1024))
        (jsRoundDiv s.freemem (1024 * 1024))
        (jsRoundDiv s.uptime 60) s.hostname),
     ("\nSelected Environment Variables",
      LogData.envVars (pathDisplay s.PATH) s.NODE_ENV
        (jsOr s.HOME s.USERPROFILE) s.SHELL s.LANG s.TERM
        (jsOr s.USER s.USERNAME))]
   else [])
    ++ (match text with
        | some t => if t.isEmpty then [] else [("running mode", LogData.text t)]
        | none => [])

/-- The text selection of the CLI entry point: the value of the text
option, or the positional words joined with spaces when the option is
falsy and positional words are present. -/
def selectUserText (optionsText : Option String) (positionalArgs : List String) :
    Option String :=
  if !jsTruthyStr optionsText && !positionalArgs.isEmpty then
    some (String.intercalate " " positionalArgs)
  else optionsText

/-- A prompt-answer record with every prompt interrupted. -/
def noAnswers : PromptAnswers := ⟨none, none, none, none, none⟩

lemma configFromJson_storedToJson (c : StoredConfig) :
    configFromJson (storedToJson c) = some c := by
  obtain ⟨k, p, m, ep, h, so⟩ := c
  cases k <;> cases p <;> cases m <;> cases ep <;> cases h <;> cases so <;> rfl

lemma configFromJson_configToJson (c : ShellManConfig) :
    configFromJson (configToJson c) = some (toStored c) := by
  obtain ⟨k, p, m, ep, h, so⟩ := c
  cases ep <;> cases so <;> rfl

/-- C4: for every configuration value, writing it with writeConfig and
reading it back with readConfig yields exactly the stored view of the
original value, for any prior file state; equivalently, serialization to
JSON followed by the parsed-object view is the identity up to the stored
view. JSON serialization of the configuration is lossless. -/
theorem writeConfig_readConfig_roundtrip (c : ShellManConfig) (fs : FileState) :
    readConfig (writeConfig true fs c).2 = some (toStored c)
      ∧ configFromJson (configToJson c) = some (toStored c) :=
  ⟨configFromJson_configToJson c, configFromJson_configToJson c⟩

/-- C5: when no configuration file exists and the mode is non-interactive,
initConfig returns exactly the default configuration with provenance
defaults, and writes that same configuration to the configuration file. -/
theorem initConfig_absent_noninteractive (a : PromptAnswers) (pf : Bool) :
    initConfig true ⟨FileState.absent, a, pf, true, false⟩
      = ({ DEFAULT_CONFIG with source := some "defaults" },
         FileState.content
           (configToJson { DEFAULT_CONFIG with source := some "defaults" })) :=
  rfl

/-- C7: when the configuration file exists but fails to parse, initConfig
recovers locally in either mode: it returns the default configuration
with a read-error provenance and writes that same configuration to the
file. -/
theorem initConfig_unparseable_defaults (ni : Bool) (a : PromptAnswers)
    (pf : Bool) :
    initConfig ni ⟨FileState.invalid, a, pf, true, false⟩
      = ({ DEFAULT_CONFIG with source := some "defaults (read error)" },
         FileState.content
           (configToJson
             { DEFAULT_CONFIG with source := some "defaults (read error)" })) :=
  rfl

/-- C1: for every mode and every ambient environment (any file state, any
prompt behaviour, failing writes, failing directory creation), initConfig
returns an ordinary result: either its core runs to completion and that
result is returned, or the core raises and the outermost catch returns
the default configuration with the error-fallback provenance. No
exception propagates to the caller. -/
theorem initConfig_never_fails (ni : Bool) (e : Env) :
    (∃ r, initConfigCore ni e = Except.ok r ∧ initConfig ni e = r)
      ∨ (initConfigCore ni e = Except.error ()
          ∧ initConfig ni e
              = ({ DEFAULT_CONFIG with source := some "defaults (error fallback)" },
                 e.fileState)) := by
  cases hcore : initConfigCore ni e with
  | ok r => exact Or.inl ⟨r, rfl, by unfold initConfig; rw [hcore]⟩
  | error u =>
      refine Or.inr ⟨?_, by unfold initConfig; rw [hcore]⟩
      cases u
      rfl

/-- C9: with the text hello selected (as the CLI does for the text flag)
and the debug flag unset, the presentation output is exactly the single
running-mode line carrying the literal text hello; none of the verbose
debug blocks (environment, process, system, environment variables) is
emitted. -/
theorem displayEnvironmentInfo_text_no_debug (info : EnvironmentInfo)
    (s : SysInfo) (ps : List String) :
    displayEnvironmentInfo info (selectUserText (some "hello") ps) false s
      = [("running mode", LogData.text "hello")] :=
  rfl

/-- C10: the static default configuration does not pass validation: its
empty API key counts as missing, so validateConfig returns exactly the
singleton list API_KEY; consequently a configuration file written from
the defaults is classified as having missing fields on the next
non-interactive initConfig run, which takes the fill-from-defaults branch
(visible in the provenance of its result). -/
theorem validateConfig_default_missing_api_key :
    validateConfig (toStored DEFAULT_CONFIG) = ["API_KEY"]
      ∧ (initConfig true
          ⟨FileState.content
            (configToJson { DEFAULT_CONFIG with source := some "defaults" }),
           noAnswers, false, true, false⟩).1.source
          = some "existing with default additions" := by
  exact ⟨rfl, rfl⟩

/-- C6: on a non-Windows platform, when the SHELL variable holds
/bin/zsh the environment reader reports that path with the basename zsh
as the shell name; when SHELL is unset or empty it reports the default
shell /bin/sh with name sh. -/
theorem getEnvironmentInfo_posix_shell (ot ov ar platform : String)
    (env : ProcEnv) (h : platform ≠ "win32") :
    (env.SHELL = some "/bin/zsh" →
        (getEnvironmentInfo ot ov ar platform env).shellPath = "/bin/zsh"
          ∧ (getEnvironmentInfo ot ov ar platform env).shellName = "zsh")
      ∧ (jsTruthyStr env.SHELL = false →
          (getEnvironmentInfo ot ov ar platform env).shellPath = "/bin/sh"
            ∧ (getEnvironmentInfo ot ov ar platform env).shellName = "sh") := by
  have hs : getShellInfo platform env =
      (if !jsTruthyStr env.SHELL then { path := "/bin/sh", name := "sh" }
       else { path := env.SHELL.getD "",
              name := basename (env.SHELL.getD "") }) := by
    unfold getShellInfo
    rw [if_neg h]
  constructor
  · intro hz
    rw [hz] at hs
    constructor <;> simp [getEnvironmentInfo, hs] <;> decide
  · intro hf
    rw [hf] at hs
    constructor <;> simp [getEnvironmentInfo, hs]

/-- Witness for C6 on a concrete POSIX host: with SHELL set to /bin/zsh
the reader reports zsh, and with SHELL unset it reports /bin/sh. -/
theorem getEnvironmentInfo_posix_shell_witness :
    (getEnvironmentInfo "Linux" "6.1.0" "x64" "linux"
        ⟨none, none, some "/bin/zsh"⟩).shellName = "zsh"
      ∧ (getEnvironmentInfo "Linux" "6.1.0" "x64" "linux"
          ⟨none, none, none⟩).shellPath = "/bin/sh" :=
  ⟨((getEnvironmentInfo_posix_shell "Linux" "6.1.0" "x64" "linux"
      ⟨none, none, some "/bin/zsh"⟩ (by decide)).1 rfl).2,
   ((getEnvironmentInfo_posix_shell "Linux" "6.1.0" "x64" "linux"
      ⟨none, none, none⟩ (by decide)).2 rfl).1⟩

lemma promptForMissingConfig_spec (a : PromptAnswers) (pc : StoredConfig) :
    (promptForMissingConfig a pc).1.API_PROVIDER
        = (if (mergeWithDefaults pc).API_PROVIDER.isEmpty
           then promptForApiProvider a else (mergeWithDefaults pc).API_PROVIDER)
      ∧ (promptForMissingConfig a pc).1.API_KEY
        = (if (mergeWithDefaults pc).API_KEY.isEmpty
           then promptForApiKey a else (mergeWithDefaults pc).API_KEY)
      ∧ (promptForMissingConfig a pc).1.API_MODEL
        = (if (mergeWithDefaults pc).API_MODEL.isEmpty
              || !((PROVIDER_MODELS (promptForMissingConfig a pc).1.API_PROVIDER).contains
                    (mergeWithDefaults pc).API_MODEL)
           then promptForApiModel a (promptForMissingConfig a pc).1.API_PROVIDER
           else (mergeWithDefaults pc).API_MODEL)
      ∧ (promptForMissingConfig a pc).1.API_CUSTOM_ENDPOINT = promptForCustomEndpoint a
      ∧ (promptForMissingConfig a pc).1.HISTORY_ENABLE = promptForHistoryEnable a
      ∧ (promptForMissingConfig a pc).1.source = pc.source
      ∧ ("API_KEY" ∈ (promptForMissingConfig a pc).2
          ↔ (mergeWithDefaults pc).API_KEY.isEmpty = true)
      ∧ ("API_PROVIDER" ∈ (promptForMissingConfig a pc).2
          ↔ (mergeWithDefaults pc).API_PROVIDER.isEmpty = true)
      ∧ ("API_MODEL" ∈ (promptForMissingConfig a pc).2
          ↔ ((mergeWithDefaults pc).API_MODEL.isEmpty
              || !((PROVIDER_MODELS (promptForMissingConfig a pc).1.API_PROVIDER).contains
                    (mergeWithDefaults pc).API_MODEL)) = true)
      ∧ "API_CUSTOM_ENDPOINT" ∈ (promptForMissingConfig a pc).2
      ∧ "HISTORY_ENABLE" ∈ (promptForMissingConfig a pc).2 := by
  unfold promptForMissingConfig
  by_cases hk : (mergeWithDefaults pc).API_KEY.isEmpty = true <;>
  by_cases hp : (mergeWithDefaults pc).API_PROVIDER.isEmpty = true <;>
  by_cases hm : ((mergeWithDefaults pc).API_MODEL.isEmpty
        || !((PROVIDER_MODELS (if (mergeWithDefaults pc).API_PROVIDER.isEmpty
                then promptForApiProvider a
                else (mergeWithDefaults pc).API_PROVIDER)).contains
              (mergeWithDefaults pc).API_MODEL)) = true <;>
  simp_all <;> rfl

/-- Configuration with the API model absent and the provider openai, used
to refute the claim that an absent stored model is always re-prompted. -/
def ecModelAbsent : StoredConfig :=
  ⟨some "k", some "openai", none, none, some true, none⟩

/-- Prompt answers in which the user would pick a specific model. -/
def aModelPick : PromptAnswers := ⟨none, some "picked-model", none, none, none⟩

/-- Counterexample to C8 as stated: with the stored API model absent and
the provider openai, the model is not re-prompted; the merge with the
defaults fills in the default model, which is in the openai list, so the
check passes silently and the answer the user would give is ignored. -/
theorem promptForMissingConfig_absent_model_not_prompted :
    ecModelAbsent.API_MODEL = none
      ∧ (promptForMissingConfig aModelPick ecModelAbsent).1.API_MODEL
          = "gpt-3.5-turbo"
      ∧ "API_MODEL" ∉ (promptForMissingConfig aModelPick ecModelAbsent).2 := by
  decide

/-- C8 (amended): during the missing-field prompt path the model check is
applied to the merged model, which is the stored model when present and
the static default model when absent; the model is re-prompted exactly
when that merged model is empty or not in the model list of the current
provider, and kept without re-prompting otherwise. In particular an
absent stored model under the provider openai is silently replaced by
the default model without a prompt. -/
theorem promptForMissingConfig_model_policy (a : PromptAnswers)
    (ec : StoredConfig) :
    (promptForMissingConfig a ec).1.API_MODEL
        = (if (ec.API_MODEL.getD DEFAULT_CONFIG.API_MODEL).isEmpty
              || !((PROVIDER_MODELS (promptForMissingConfig a ec).1.API_PROVIDER).contains
                    (ec.API_MODEL.getD DEFAULT_CONFIG.API_MODEL))
           then promptForApiModel a (promptForMissingConfig a ec).1.API_PROVIDER
           else ec.API_MODEL.getD DEFAULT_CONFIG.API_MODEL)
      ∧ ("API_MODEL" ∈ (promptForMissingConfig a ec).2
          ↔ ((ec.API_MODEL.getD DEFAULT_CONFIG.API_MODEL).isEmpty
              || !((PROVIDER_MODELS (promptForMissingConfig a ec).1.API_PROVIDER).contains
                    (ec.API_MODEL.getD DEFAULT_CONFIG.API_MODEL))) = true) :=
  ⟨(promptForMissingConfig_spec a ec).2.2.1,
   (promptForMissingConfig_spec a ec).2.2.2.2.2.2.2.2.1⟩

/-- Existing configuration with one missing required field and a recorded
provenance, used to refute the claim that every field outside the missing
set is preserved unchanged. -/
def ecWithSource : StoredConfig :=
  ⟨some "k", some "openai", some "gpt-4", none, none, some "old"⟩

/-- Counterexample to C2 as stated: the provenance field source is not in
the missing set, yet the non-interactive fill path overwrites it. -/
theorem initConfig_noninteractive_source_overwritten :
    validateConfig ecWithSource = ["HISTORY_ENABLE"]
      ∧ (initConfig true
          ⟨FileState.content (storedToJson ecWithSource), noAnswers, false, true,
           false⟩).1.source ≠ ecWithSource.source := by
  decide

set_option maxHeartbeats 1000000

/-- C2 (amended): for every existing parsed configuration, the
non-interactive initializer sets each of the four required fields to its
DEFAULT_CONFIG value when the field is in the missing set computed by
validateConfig, keeps its stored value otherwise, and keeps the custom
endpoint unchanged; the provenance field source however is always
overwritten, with the valid marker when nothing is missing and with the
default-additions marker otherwise. -/
theorem initConfig_noninteractive_fills_missing (ec : StoredConfig)
    (a : PromptAnswers) (pf wk : Bool) :
    ((initConfig true ⟨FileState.content (storedToJson ec), a, pf, wk, false⟩).1.API_KEY
        = (if "API_KEY" ∈ validateConfig ec then DEFAULT_CONFIG.API_KEY
           else ec.API_KEY.getD ""))
      ∧ ((initConfig true ⟨FileState.content (storedToJson ec), a, pf, wk, false⟩).1.API_PROVIDER
        = (if "API_PROVIDER" ∈ validateConfig ec then DEFAULT_CONFIG.API_PROVIDER
           else ec.API_PROVIDER.getD ""))
      ∧ ((initConfig true ⟨FileState.content (storedToJson ec), a, pf, wk, false⟩).1.API_MODEL
        = (if "API_MODEL" ∈ validateConfig ec then DEFAULT_CONFIG.API_MODEL
           else ec.API_MODEL.getD ""))
      ∧ ((initConfig true ⟨FileState.content (storedToJson ec), a, pf, wk, false⟩).1.HISTORY_ENABLE
        = (if "HISTORY_ENABLE" ∈ validateConfig ec then DEFAULT_CONFIG.HISTORY_ENABLE
           else ec.HISTORY_ENABLE.getD true))
      ∧ ((initConfig true ⟨FileState.content (storedToJson ec), a, pf, wk, false⟩).1.API_CUSTOM_ENDPOINT
        = ec.API_CUSTOM_ENDPOINT)
      ∧ ((initConfig true ⟨FileState.content (storedToJson ec), a, pf, wk, false⟩).1.source
        = some (if (validateConfig ec).isEmpty then "existing (valid)"
                else "existing with default additions")) := by
  unfold initConfig initConfigCore
  cases hk : jsTruthyStr ec.API_KEY <;> cases hp : jsTruthyStr ec.API_PROVIDER <;>
  cases hm : jsTruthyStr ec.API_MODEL <;> cases hh : ec.HISTORY_ENABLE <;>
  simp_all [validateConfig, readConfig, configExists, configFromJson_storedToJson,
    fillDefaults, setField, forceConfig, DEFAULT_CONFIG, writeConfig]

lemma jsTruthy_getD_not_empty {o : Option String} (d : String)
    (h : jsTruthyStr o = true) : (o.getD d).isEmpty = false := by
  cases o <;> simp_all [jsTruthyStr]

lemma jsTruthy_getD_eq {o : Option String} (d e : String)
    (h : jsTruthyStr o = true) : o.getD d = o.getD e := by
  cases o <;> simp_all [jsTruthyStr]

lemma initConfig_interactive_missing_branch (ec : StoredConfig)
    (a : PromptAnswers) (wk : Bool) (h : validateConfig ec ≠ []) :
    initConfig false ⟨FileState.content (storedToJson ec), a, false, wk, false⟩
      = ({ (promptForMissingConfig a ec).1 with
            source := some "existing with user updates" },
         (writeConfig wk (FileState.content (storedToJson ec))
           { (promptForMissingConfig a ec).1 with
              source := some "existing with user updates" }).2) := by
  have hne : (validateConfig ec).isEmpty = false := by
    cases hvc : validateConfig ec
    · exact absurd hvc h
    · rfl
  unfold initConfig initConfigCore
  simp [configExists, readConfig, configFromJson_storedToJson, hne,
    promptForMissingConfigE]

/-- Existing configuration missing only the API key, with a stored history
toggle and a stored custom endpoint. -/
def ecHistoryStored : StoredConfig :=
  ⟨none, some "openai", some "gpt-4", some "https-old", some false, none⟩

/-- Prompt answers that would set a new key, endpoint and history value. -/
def aOverwrite : PromptAnswers :=
  ⟨some "newkey", none, some "https-new", some true, none⟩

/-- Counterexample to C3 as stated: with only API_KEY missing, the
interactive prompt path nevertheless re-prompts the custom endpoint and
the history toggle, overwriting their stored values with the prompted
ones. -/
theorem initConfig_interactive_overwrites_present_fields :
    validateConfig ecHistoryStored = ["API_KEY"]
      ∧ ecHistoryStored.HISTORY_ENABLE = some false
      ∧ ecHistoryStored.API_CUSTOM_ENDPOINT = some "https-old"
      ∧ (initConfig false
          ⟨FileState.content (storedToJson ecHistoryStored), aOverwrite, false,
           true, false⟩).1.HISTORY_ENABLE = true
      ∧ (initConfig false
          ⟨FileState.content (storedToJson ecHistoryStored), aOverwrite, false,
           true, false⟩).1.API_CUSTOM_ENDPOINT = some "https-new" := by
  decide

/-- C3 (amended): in interactive mode, when the existing configuration
parses and has a non-empty missing set, stored non-empty API_KEY and
API_PROVIDER values are kept and not re-prompted (the model is governed
by the re-derivation policy of the current provider); however the custom
endpoint and the history toggle are always re-prompted and set to the
prompted values, and the provenance is set to the user-updates marker. -/
theorem initConfig_interactive_missing_prompts (ec : StoredConfig)
    (a : PromptAnswers) (h : validateConfig ec ≠ []) :
    (jsTruthyStr ec.API_KEY = true →
        (initConfig false ⟨FileState.content (storedToJson ec), a, false, true, false⟩).1.API_KEY
            = ec.API_KEY.getD ""
          ∧ "API_KEY" ∉ (promptForMissingConfig a ec).2)
      ∧ (jsTruthyStr ec.API_PROVIDER = true →
          (initConfig false ⟨FileState.content (storedToJson ec), a, false, true, false⟩).1.API_PROVIDER
              = ec.API_PROVIDER.getD ""
            ∧ "API_PROVIDER" ∉ (promptForMissingConfig a ec).2)
      ∧ (initConfig false ⟨FileState.content (storedToJson ec), a, false, true, false⟩).1.API_CUSTOM_ENDPOINT
          = promptForCustomEndpoint a
      ∧ (initConfig false ⟨FileState.content (storedToJson ec), a, false, true, false⟩).1.HISTORY_ENABLE
          = promptForHistoryEnable a
      ∧ "API_CUSTOM_ENDPOINT" ∈ (promptForMissingConfig a ec).2
      ∧ "HISTORY_ENABLE" ∈ (promptForMissingConfig a ec).2
      ∧ (initConfig false ⟨FileState.content (storedToJson ec), a, false, true, false⟩).1.source
          = some "existing with user updates" := by
  obtain ⟨hprov, hkey, hmodel, hep, hhist, hsrc, hkmem, hpmem, hmmem, hepmem, hhmem⟩ :=
    promptForMissingConfig_spec a ec
  rw [initConfig_interactive_missing_branch ec a true h]
  refine ⟨?_, ?_, ?_, ?_, hepmem, hhmem, rfl⟩
  · intro ht
    have hne : (mergeWithDefaults ec).API_KEY.isEmpty = false :=
      jsTruthy_getD_not_empty DEFAULT_CONFIG.API_KEY ht
    constructor
    · show (promptForMissingConfig a ec).1.API_KEY = ec.API_KEY.getD ""
      rw [hkey, if_neg (by simp [hne])]
      exact jsTruthy_getD_eq _ _ ht
    · intro hmem
      rw [hkmem] at hmem
      simp [hne] at hmem
  · intro ht
    have hne : (mergeWithDefaults ec).API_PROVIDER.isEmpty = false :=
      jsTruthy_getD_not_empty DEFAULT_CONFIG.API_PROVIDER ht
    constructor
    · show (promptForMissingConfig a ec).1.API_PROVIDER = ec.API_PROVIDER.getD ""
      rw [hprov, if_neg (by simp [hne])]
      exact jsTruthy_getD_eq _ _ ht
    · intro hmem
      rw [hpmem] at hmem
      simp [hne] at hmem
  · exact hep
  · exact hhist

/-- Existing configuration missing only the history toggle, with the API
key present. -/
def ecKeyPresent : StoredConfig :=
  ⟨some "k", some "openai", some "gpt-4", none, none, none⟩

/-- Witness for the amended C3 at a concrete input: the missing set is
non-empty and the stored API key is kept. -/
theorem initConfig_interactive_missing_prompts_witness :
    validateConfig ecKeyPresent ≠ []
      ∧ (initConfig false
          ⟨FileState.content (storedToJson ecKeyPresent), noAnswers, false, true,
           false⟩).1.API_KEY = "k" :=
  ⟨by decide,
   ((initConfig_interactive_missing_prompts ecKeyPresent noAnswers
      (by decide)).1 (by decide)).1⟩
